import Mathlib

/-!
Verification of the party-playlist queue manager (`app.py`).

The Flask handlers are embedded as pure functions: the module-level globals
(`songs`, `genre_votes`) and the per-browser session data (`liked_songs`,
`disliked_songs`, `voted_genre`, `dj_logged_in`) become explicit arguments
and results, and each handler returns the flash message it emits (category
`error` or `success`) so that error behaviour is observable.
-/

namespace PartyQueue

/-- A song in the queue: the dict built in `add_song`
(keys `id`, `title`, `artist`, `likes`, `dislikes`, `timestamp`). -/
structure Song where
  id : Nat
  title : String
  artist : String
  likes : Nat
  dislikes : Nat
  timestamp : String
  deriving DecidableEq

/-- The flash message a handler emits: `flash(msg, category='error')`,
`flash(msg, category='success')`, or no flash at all. -/
inductive Flash where
  | error (msg : String) : Flash
  | success (msg : String) : Flash
  | silent : Flash
  deriving DecidableEq

/-- Whether the flash is the error category, i.e. the handler failed. -/
def Flash.isError : Flash → Bool
  | Flash.error _ => true
  | _ => false

/-- Embeds Python `str.strip()`: drop whitespace from both ends. -/
def strip (s : String) : String :=
  ⟨((s.data.dropWhile Char.isWhitespace).reverse.dropWhile Char.isWhitespace).reverse⟩

/-- `get_next_id`: `max((s['id'] for s in songs), default=0) + 1`. -/
def get_next_id (songs : List Song) : Nat :=
  (songs.map Song.id).foldl max 0 + 1

/-- The `/add` handler `add_song`: strips both fields, rejects an empty title
then an empty artist, otherwise appends the new song (zero likes/dislikes,
the current timestamp is passed in as `ts`) and also returns it. -/
def add_song (title artist ts : String) (songs : List Song) :
    List Song × Option Song × Flash :=
  let t := strip title
  let a := strip artist
  if t = "" then
    (songs, Option.none, Flash.error "Bitte gib einen Songtitel ein.")
  else if a = "" then
    (songs, Option.none, Flash.error "Bitte gib einen Künstlernamen ein.")
  else
    let song : Song := ⟨get_next_id songs, t, a, 0, 0, ts⟩
    (songs ++ [song], some song, Flash.success "Song hinzugefügt!")

/-- One browser session: `session['liked_songs']`, `session['disliked_songs']`
and `session['voted_genre']`. -/
structure SessionState where
  liked : List Nat
  disliked : List Nat
  votedGenre : Option String
  deriving DecidableEq

/-- The `for song in songs` loop of `toggle_like`: finds the first song with
the given id, toggles the like (removing a like floors the counter at zero;
adding a like also removes a potential dislike), and stops at the first
match (`break`).  Returns the new songs, liked list, disliked list, flash. -/
def likeLoop (song_id : Nat) (liked disliked : List Nat) :
    List Song → List Song × List Nat × List Nat × Flash
  | [] => ([], liked, disliked, Flash.silent)
  | song :: rest =>
    if song.id = song_id then
      if song_id ∈ liked then
        ({ song with likes := if song.likes > 0 then song.likes - 1 else song.likes } :: rest,
         liked.erase song_id, disliked,
         Flash.success "Dein Daumen hoch wurde entfernt.")
      else
        ({ song with
             likes := song.likes + 1,
             dislikes := if song_id ∈ disliked then
                 (if song.dislikes > 0 then song.dislikes - 1 else song.dislikes)
               else song.dislikes } :: rest,
         liked ++ [song_id],
         if song_id ∈ disliked then disliked.erase song_id else disliked,
         Flash.success "Daumen hoch abgegeben!")
    else
      let r := likeLoop song_id liked disliked rest
      (song :: r.1, r.2)

/-- The `/like/<song_id>` handler `toggle_like`. -/
def toggle_like (song_id : Nat) (sess : SessionState) (songs : List Song) :
    List Song × SessionState × Flash :=
  let r := likeLoop song_id sess.liked sess.disliked songs
  (r.1, { sess with liked := r.2.1, disliked := r.2.2.1 }, r.2.2.2)

/-- The `for song in songs` loop of `toggle_dislike`, mirror image of
`likeLoop` with likes and dislikes swapped. -/
def dislikeLoop (song_id : Nat) (liked disliked : List Nat) :
    List Song → List Song × List Nat × List Nat × Flash
  | [] => ([], liked, disliked, Flash.silent)
  | song :: rest =>
    if song.id = song_id then
      if song_id ∈ disliked then
        ({ song with dislikes := if song.dislikes > 0 then song.dislikes - 1 else song.dislikes } :: rest,
         liked, disliked.erase song_id,
         Flash.success "Dein Daumen runter wurde entfernt.")
      else
        ({ song with
             dislikes := song.dislikes + 1,
             likes := if song_id ∈ liked then
                 (if song.likes > 0 then song.likes - 1 else song.likes)
               else song.likes } :: rest,
         if song_id ∈ liked then liked.erase song_id else liked,
         disliked ++ [song_id],
         Flash.success "Daumen runter abgegeben.")
    else
      let r := dislikeLoop song_id liked disliked rest
      (song :: r.1, r.2)

/-- The `/dislike/<song_id>` handler `toggle_dislike`. -/
def toggle_dislike (song_id : Nat) (sess : SessionState) (songs : List Song) :
    List Song × SessionState × Flash :=
  let r := dislikeLoop song_id sess.liked sess.disliked songs
  (r.1, { sess with liked := r.2.1, disliked := r.2.2.1 }, r.2.2.2)

/-- The `/remove/<song_id>` handler: the `require_dj` decorator rejects a
session without the DJ flag (error flash, queue untouched); otherwise the
song with the matching id is filtered out (a missing id is a silent no-op
on the queue, the success flash is emitted regardless). -/
def remove_song (song_id : Nat) (dj_logged_in : Bool) (songs : List Song) :
    List Song × Flash :=
  if dj_logged_in then
    (songs.filter (fun s => s.id != song_id),
     Flash.success "Song aus der Warteschlange entfernt.")
  else
    (songs, Flash.error "DJ login required")

/-- The fixed list `genres`. -/
def genres : List String :=
  ["Pop", "Rock", "Hip-Hop", "Elektronisch", "Dance", "Schlager",
   "R&B", "Reggae", "Latin", "Alternative"]

/-- The `genre_votes` dict, keyed by the fixed genres. -/
abbrev GenreVotes := String → Nat

/-- `genre_votes = {genre: 0 for genre in genres}`. -/
def init_genre_votes : GenreVotes := fun _ => 0

/-- The `/vote` handler `vote_genre`: rejects a name outside `genres`;
otherwise removes the session's previous vote (if its count is positive),
increments the selected genre and records the selection in the session. -/
def vote_genre (selected : String) (sess : SessionState) (gv : GenreVotes) :
    GenreVotes × SessionState × Flash :=
  if selected ∈ genres then
    let gv1 : GenreVotes :=
      match sess.votedGenre with
      | some previous =>
        if previous ∈ genres ∧ gv previous > 0 then
          fun g => if g = previous then gv previous - 1 else gv g
        else gv
      | Option.none => gv
    let gv2 : GenreVotes := fun g => if g = selected then gv1 g + 1 else gv1 g
    (gv2, { sess with votedGenre := some selected },
     Flash.success ("Deine Stimme für " ++ selected ++ " wurde gezählt!"))
  else
    (gv, sess, Flash.error "Bitte wähle ein gültiges Genre aus.")

/-- `total_votes = sum(genre_votes.values())`. -/
def total_votes (gv : GenreVotes) : Nat :=
  (genres.map gv).sum

/-- One entry of the `genre_data` list in the `/` and `/data` handlers.
The percentage is modelled exactly in `ℚ` (the code computes it in
floating point). -/
structure GenreEntry where
  genre : String
  votes : Nat
  percentage : ℚ
  deriving DecidableEq

/-- The `genre_data` list: one entry per genre in enumeration order. -/
def genre_data (gv : GenreVotes) : List GenreEntry :=
  genres.map fun g =>
    ⟨g, gv g,
     if 0 < total_votes gv then (gv g : ℚ) / (total_votes gv : ℚ) * 100 else 0⟩

/-- Python `max(items, key=f)` over a nonempty list `a :: l`: scans left to
right and replaces the current best only on a strictly larger key, so the
first maximal element wins. -/
def firstMaxBy {α : Type} (f : α → Nat) (a : α) (l : List α) : α :=
  l.foldl (fun best x => if f x > f best then x else best) a

/-- The largest vote count over all genres. -/
def max_count (gv : GenreVotes) : Nat :=
  (genres.map gv).foldl max 0

/-- `top_genre`: `None` when no votes were cast, otherwise
`max(genre_votes.items(), key=lambda item: item[1])[0]` (dict iteration
order is the `genres` list order). -/
def top_genre (gv : GenreVotes) : Option String :=
  if 0 < total_votes gv then
    match genres with
    | [] => Option.none
    | g :: gs => some (firstMaxBy gv g gs)
  else Option.none

/-- The sort key of the `/` and `/data` handlers,
`key=lambda s: (-s['likes'], s['id'])`: `a` sorts no later than `b` when
`a` has strictly more likes, or equal likes and no larger id. -/
def songOrder (a b : Song) : Prop :=
  b.likes < a.likes ∨ (a.likes = b.likes ∧ a.id ≤ b.id)

instance : DecidableRel songOrder := fun a b => by
  unfold songOrder; infer_instance

/-- `sorted(songs, key=lambda s: (-s['likes'], s['id']))`: Python's `sorted`
is a stable sort, embedded as the stable `insertionSort` on `songOrder`. -/
def sorted_songs (songs : List Song) : List Song :=
  List.insertionSort songOrder songs

/-- The whole mutable state of the app: the global `songs` and
`genre_votes`, together with one distinguished browser session. -/
structure World where
  songs : List Song
  gv : GenreVotes
  sess : SessionState

/-- The state at process start: empty queue, all genre counts zero, a
fresh session. -/
def init_world : World :=
  ⟨[], init_genre_votes, ⟨[], [], Option.none⟩⟩

/-- `toggle_like` acting on the whole state: only `songs` and the caller's
session are read or written, `genre_votes` is untouched. -/
def like_route (song_id : Nat) (w : World) : World × Flash :=
  let r := toggle_like song_id w.sess w.songs
  (⟨r.1, w.gv, r.2.1⟩, r.2.2)

/-- `toggle_dislike` acting on the whole state. -/
def dislike_route (song_id : Nat) (w : World) : World × Flash :=
  let r := toggle_dislike song_id w.sess w.songs
  (⟨r.1, w.gv, r.2.1⟩, r.2.2)

/-- One request against the app: either the distinguished session acts, or
some other browser session (arbitrary `liked`/`disliked`/`voted_genre`
contents) hits the same global state. -/
inductive Step : World → World → Prop where
  | add (t a ts : String) (w : World) :
      Step w ⟨(add_song t a ts w.songs).1, w.gv, w.sess⟩
  | remove (id : Nat) (dj : Bool) (w : World) :
      Step w ⟨(remove_song id dj w.songs).1, w.gv, w.sess⟩
  | like (id : Nat) (w : World) :
      Step w (like_route id w).1
  | dislike (id : Nat) (w : World) :
      Step w (dislike_route id w).1
  | vote (g : String) (w : World) :
      Step w ⟨w.songs, (vote_genre g w.sess w.gv).1, (vote_genre g w.sess w.gv).2.1⟩
  | otherLike (id : Nat) (other : SessionState) (w : World) :
      Step w ⟨(toggle_like id other w.songs).1, w.gv, w.sess⟩
  | otherDislike (id : Nat) (other : SessionState) (w : World) :
      Step w ⟨(toggle_dislike id other w.songs).1, w.gv, w.sess⟩
  | otherVote (g : String) (other : SessionState) (w : World) :
      Step w ⟨w.songs, (vote_genre g other w.gv).1, w.sess⟩

/-- States reachable from process start by any sequence of requests. -/
inductive Reach : World → Prop where
  | init : Reach init_world
  | step {w w2 : World} : Reach w → Step w w2 → Reach w2

/-! ### Helper lemmas -/

lemma init_le_foldl_max : ∀ (l : List Nat) (a : Nat), a ≤ l.foldl max a
  | [], a => le_refl a
  | x :: t, a => le_trans (Nat.le_max_left a x) (init_le_foldl_max t (max a x))

lemma mem_le_foldl_max (l : List Nat) : ∀ (a x : Nat), x ∈ l → x ≤ l.foldl max a := by
  induction l with
  | nil => intro a x hx; cases hx
  | cons y t ih =>
    intro a x hx
    rcases List.mem_cons.mp hx with h | h
    · subst h; exact le_trans (Nat.le_max_right a x) (init_le_foldl_max t (max a x))
    · exact ih (max a y) x h

lemma likeLoop_not_found (id : Nat) (l d : List Nat) :
    ∀ songs : List Song, (∀ s ∈ songs, s.id ≠ id) →
      likeLoop id l d songs = (songs, l, d, Flash.silent)
  | [], _ => rfl
  | s :: rest, h => by
    have hs : s.id ≠ id := h s (List.mem_cons_self s rest)
    have ih := likeLoop_not_found id l d rest (fun x hx => h x (List.mem_cons_of_mem s hx))
    simp [likeLoop, hs, ih]

lemma dislikeLoop_not_found (id : Nat) (l d : List Nat) :
    ∀ songs : List Song, (∀ s ∈ songs, s.id ≠ id) →
      dislikeLoop id l d songs = (songs, l, d, Flash.silent)
  | [], _ => rfl
  | s :: rest, h => by
    have hs : s.id ≠ id := h s (List.mem_cons_self s rest)
    have ih := dislikeLoop_not_found id l d rest (fun x hx => h x (List.mem_cons_of_mem s hx))
    simp [dislikeLoop, hs, ih]

lemma likeLoop_found_liked (id : Nat) (l d : List Nat) (hl : id ∈ l) (s0 : Song)
    (hid : s0.id = id) :
    ∀ (pre post : List Song), (∀ s ∈ pre, s.id ≠ id) →
      likeLoop id l d (pre ++ s0 :: post) =
        (pre ++ { s0 with likes := if s0.likes > 0 then s0.likes - 1 else s0.likes } :: post,
         l.erase id, d, Flash.success "Dein Daumen hoch wurde entfernt.")
  | [], post, _ => by simp [likeLoop, hid, hl]
  | p :: pre, post, h => by
    have hp : p.id ≠ id := h p (List.mem_cons_self p pre)
    have ih := likeLoop_found_liked id l d hl s0 hid pre post
      (fun x hx => h x (List.mem_cons_of_mem p hx))
    simp [likeLoop, hp, ih]

lemma likeLoop_found_fresh (id : Nat) (l d : List Nat) (hl : id ∉ l) (s0 : Song)
    (hid : s0.id = id) :
    ∀ (pre post : List Song), (∀ s ∈ pre, s.id ≠ id) →
      likeLoop id l d (pre ++ s0 :: post) =
        (pre ++ { s0 with
            likes := s0.likes + 1,
            dislikes := if id ∈ d then
                (if s0.dislikes > 0 then s0.dislikes - 1 else s0.dislikes)
              else s0.dislikes } :: post,
         l ++ [id],
         if id ∈ d then d.erase id else d,
         Flash.success "Daumen hoch abgegeben!")
  | [], post, _ => by simp [likeLoop, hid, hl]
  | p :: pre, post, h => by
    have hp : p.id ≠ id := h p (List.mem_cons_self p pre)
    have ih := likeLoop_found_fresh id l d hl s0 hid pre post
      (fun x hx => h x (List.mem_cons_of_mem p hx))
    simp [likeLoop, hp, ih]

lemma dislikeLoop_found_disliked (id : Nat) (l d : List Nat) (hd : id ∈ d) (s0 : Song)
    (hid : s0.id = id) :
    ∀ (pre post : List Song), (∀ s ∈ pre, s.id ≠ id) →
      dislikeLoop id l d (pre ++ s0 :: post) =
        (pre ++ { s0 with dislikes := if s0.dislikes > 0 then s0.dislikes - 1 else s0.dislikes } :: post,
         l, d.erase id, Flash.success "Dein Daumen runter wurde entfernt.")
  | [], post, _ => by simp [dislikeLoop, hid, hd]
  | p :: pre, post, h => by
    have hp : p.id ≠ id := h p (List.mem_cons_self p pre)
    have ih := dislikeLoop_found_disliked id l d hd s0 hid pre post
      (fun x hx => h x (List.mem_cons_of_mem p hx))
    simp [dislikeLoop, hp, ih]

lemma dislikeLoop_found_fresh (id : Nat) (l d : List Nat) (hd : id ∉ d) (s0 : Song)
    (hid : s0.id = id) :
    ∀ (pre post : List Song), (∀ s ∈ pre, s.id ≠ id) →
      dislikeLoop id l d (pre ++ s0 :: post) =
        (pre ++ { s0 with
            dislikes := s0.dislikes + 1,
            likes := if id ∈ l then
                (if s0.likes > 0 then s0.likes - 1 else s0.likes)
              else s0.likes } :: post,
         if id ∈ l then l.erase id else l,
         d ++ [id],
         Flash.success "Daumen runter abgegeben.")
  | [], post, _ => by simp [dislikeLoop, hid, hd]
  | p :: pre, post, h => by
    have hp : p.id ≠ id := h p (List.mem_cons_self p pre)
    have ih := dislikeLoop_found_fresh id l d hd s0 hid pre post
      (fun x hx => h x (List.mem_cons_of_mem p hx))
    simp [dislikeLoop, hp, ih]

/-! ### Claims -/

/-- C1 (amended): the id `submitSong` assigns is strictly larger than every
id in the current queue (so ids in the queue stay unique), and as long as no
removal intervenes, successive submissions return strictly increasing ids:
after a successful submission the next id to be assigned is the returned id
plus one.  (Removing the song with the highest id does allow that id to be
assigned again, see the counterexample.) -/
theorem song_ids_fresh_in_queue :
    (∀ (songs : List Song) (s : Song), s ∈ songs → s.id < get_next_id songs) ∧
    (∀ (title artist ts : String) (songs songs2 : List Song) (song : Song) (f : Flash),
      add_song title artist ts songs = (songs2, some song, f) →
      song.id = get_next_id songs ∧ get_next_id songs2 = song.id + 1) := by
  constructor
  · intro songs s hs
    have h : s.id ≤ (songs.map Song.id).foldl max 0 :=
      mem_le_foldl_max _ 0 s.id (List.mem_map_of_mem Song.id hs)
    unfold get_next_id
    omega
  · intro title artist ts songs songs2 song f h
    simp only [add_song] at h
    split at h
    · simp [Prod.ext_iff] at h
    · split at h
      · simp [Prod.ext_iff] at h
      · simp only [Prod.ext_iff, Option.some.injEq] at h
        obtain ⟨hq, hsong, -⟩ := h
        subst hq
        constructor
        · rw [← hsong]
        · rw [← hsong]
          simp [get_next_id, List.foldl_append]

/-- Witness for C1 at concrete inputs. -/
theorem song_ids_fresh_in_queue_witness :
    ((⟨1, "a", "x", 0, 0, ""⟩ : Song) ∈ [(⟨1, "a", "x", 0, 0, ""⟩ : Song)] ∧
      (⟨1, "a", "x", 0, 0, ""⟩ : Song).id < get_next_id [⟨1, "a", "x", 0, 0, ""⟩]) ∧
    ((⟨1, "a", "x", 0, 0, ""⟩ : Song).id = get_next_id [] ∧
      get_next_id [⟨1, "a", "x", 0, 0, ""⟩] = (⟨1, "a", "x", 0, 0, ""⟩ : Song).id + 1) :=
  ⟨⟨by decide, song_ids_fresh_in_queue.1 _ _ (by decide)⟩,
   song_ids_fresh_in_queue.2 "a" "x" "" [] [⟨1, "a", "x", 0, 0, ""⟩]
     ⟨1, "a", "x", 0, 0, ""⟩ (Flash.success "Song hinzugefügt!") (by decide)⟩

/-- C1 counterexample: submit two songs (ids 1 and 2), let the DJ remove the
song with the highest id 2, submit again — the new song is assigned id 2,
an id already returned by an earlier `submitSong` call. -/
theorem song_id_reuse_cex :
    Option.map Song.id (add_song "b" "y" "" (add_song "a" "x" "" []).1).2.1 = some 2 ∧
    Option.map Song.id
      (add_song "c" "z" ""
        (remove_song 2 true (add_song "b" "y" "" (add_song "a" "x" "" []).1).1).1).2.1
      = some 2 := by
  decide

/-- C2 (amended): when no song with the given id is in the queue,
`toggleLike` and `toggleDislike` are silent no-ops — the queue and the
session are returned unchanged and no flash (in particular no error) is
emitted, rather than failing with `NotFoundError`. -/
theorem toggle_missing_id_noop :
    ∀ (id : Nat) (sess : SessionState) (songs : List Song),
      (∀ s ∈ songs, s.id ≠ id) →
      toggle_like id sess songs = (songs, sess, Flash.silent) ∧
      toggle_dislike id sess songs = (songs, sess, Flash.silent) := by
  intro id sess songs h
  constructor
  · simp [toggle_like, likeLoop_not_found id sess.liked sess.disliked songs h]
  · simp [toggle_dislike, dislikeLoop_not_found id sess.liked sess.disliked songs h]

/-- Witness for C2 at concrete inputs. -/
theorem toggle_missing_id_noop_witness :
    toggle_like 7 ⟨[3], [4], some "Pop"⟩ [⟨1, "t", "a", 0, 0, ""⟩]
        = ([⟨1, "t", "a", 0, 0, ""⟩], ⟨[3], [4], some "Pop"⟩, Flash.silent) ∧
    toggle_dislike 7 ⟨[3], [4], some "Pop"⟩ [⟨1, "t", "a", 0, 0, ""⟩]
        = ([⟨1, "t", "a", 0, 0, ""⟩], ⟨[3], [4], some "Pop"⟩, Flash.silent) :=
  toggle_missing_id_noop 7 ⟨[3], [4], some "Pop"⟩ [⟨1, "t", "a", 0, 0, ""⟩] (by decide)

/-- C2 counterexample: the empty queue has no song with id 1, yet
`toggleLike 1` and `toggleDislike 1` do not fail — they emit no error flash
and leave the queue unchanged. -/
theorem toggle_missing_id_cex :
    ((toggle_like 1 ⟨[], [], Option.none⟩ []).2.2).isError = false ∧
    ((toggle_dislike 1 ⟨[], [], Option.none⟩ []).2.2).isError = false ∧
    (toggle_like 1 ⟨[], [], Option.none⟩ []).1 = [] ∧
    (toggle_dislike 1 ⟨[], [], Option.none⟩ []).1 = [] := by
  decide

/-- C7 (confirmed): `submitSong` trims both fields, rejects an empty trimmed
title first, then an empty trimmed artist, and on success appends a song
with the next sequential id, the trimmed title and artist and zero
like/dislike counts; `submitSong(" Title ", " Artist ")` stores
`"Title"`/`"Artist"`. -/
theorem add_song_spec :
    ∀ (title artist ts : String) (songs : List Song),
      (strip title = "" →
        add_song title artist ts songs =
          (songs, Option.none, Flash.error "Bitte gib einen Songtitel ein.")) ∧
      (strip title ≠ "" → strip artist = "" →
        add_song title artist ts songs =
          (songs, Option.none, Flash.error "Bitte gib einen Künstlernamen ein.")) ∧
      (strip title ≠ "" → strip artist ≠ "" →
        add_song title artist ts songs =
          (songs ++ [⟨get_next_id songs, strip title, strip artist, 0, 0, ts⟩],
           some ⟨get_next_id songs, strip title, strip artist, 0, 0, ts⟩,
           Flash.success "Song hinzugefügt!")) ∧
      add_song " Title " " Artist " ts songs =
        (songs ++ [⟨get_next_id songs, "Title", "Artist", 0, 0, ts⟩],
         some ⟨get_next_id songs, "Title", "Artist", 0, 0, ts⟩,
         Flash.success "Song hinzugefügt!") := by
  intro title artist ts songs
  refine ⟨fun h1 => ?_, fun h1 h2 => ?_, fun h1 h2 => ?_, ?_⟩
  · simp [add_song, h1]
  · simp [add_song, h1, h2]
  · simp [add_song, h1, h2]
  · have e1 : strip " Title " = "Title" := by decide
    have e2 : strip " Artist " = "Artist" := by decide
    simp [add_song, e1, e2]

/-- Witness for C7 at concrete inputs. -/
theorem add_song_spec_witness :
    add_song "" "x" "" [] = ([], Option.none, Flash.error "Bitte gib einen Songtitel ein.") ∧
    add_song "x" "" "" [] = ([], Option.none, Flash.error "Bitte gib einen Künstlernamen ein.") ∧
    add_song " Title " " Artist " "" [] =
      ([⟨1, "Title", "Artist", 0, 0, ""⟩], some ⟨1, "Title", "Artist", 0, 0, ""⟩,
       Flash.success "Song hinzugefügt!") :=
  ⟨(add_song_spec "" "x" "" []).1 (by decide),
   (add_song_spec "x" "" "" []).2.1 (by decide) (by decide),
   by
     have h := (add_song_spec " Title " " Artist " "" []).2.2.2
     rw [h]
     decide⟩

/-- C9 (confirmed): `removeSong` without the DJ flag fails with the
authorization error and leaves the queue unchanged; with the DJ flag it
filters out the song with the matching id, and when no song matches the
queue comes back unchanged (silent no-op, not an error). -/
theorem remove_song_spec :
    ∀ (id : Nat) (dj : Bool) (songs : List Song),
      (dj = false →
        remove_song id dj songs = (songs, Flash.error "DJ login required")) ∧
      (dj = true →
        remove_song id dj songs =
          (songs.filter (fun s => s.id != id),
           Flash.success "Song aus der Warteschlange entfernt.")) ∧
      (dj = true → (∀ s ∈ songs, s.id ≠ id) → (remove_song id dj songs).1 = songs) := by
  intro id dj songs
  refine ⟨fun h => ?_, fun h => ?_, fun h hall => ?_⟩
  · subst h; simp [remove_song]
  · subst h; simp [remove_song]
  · subst h
    simp only [remove_song, if_pos]
    exact List.filter_eq_self.mpr (fun a ha => by simpa using hall a ha)

/-- Witness for C9 at concrete inputs. -/
theorem remove_song_spec_witness :
    remove_song 1 false [⟨1, "t", "a", 0, 0, ""⟩]
        = ([⟨1, "t", "a", 0, 0, ""⟩], Flash.error "DJ login required") ∧
    remove_song 1 true [⟨1, "t", "a", 0, 0, ""⟩]
        = ([], Flash.success "Song aus der Warteschlange entfernt.") ∧
    (remove_song 2 true [⟨1, "t", "a", 0, 0, ""⟩]).1 = [⟨1, "t", "a", 0, 0, ""⟩] :=
  ⟨(remove_song_spec 1 false _).1 rfl,
   by rw [(remove_song_spec 1 true [⟨1, "t", "a", 0, 0, ""⟩]).2.1 rfl]; decide,
   (remove_song_spec 2 true _).2.2 rfl (by decide)⟩

/-- C5 (amended): for a session that currently has the song in neither its
liked nor its disliked set, calling `toggleLike(id, s)` twice in a row is
the identity on the song queue and on the session state: the like count and
the liked set come back to their original values.  (If the session state is
out of sync with the counter — e.g. the id is in the liked set while the
song's count is 0, which is reachable after a DJ removal and id reuse — the
pair of calls can change the count, see the counterexample.) -/
theorem toggle_like_twice_id (pre post : List Song) (s0 : Song) (sess : SessionState)
    (id : Nat) (hpre : ∀ s ∈ pre, s.id ≠ id) (hid : s0.id = id)
    (hl : id ∉ sess.liked) (hd : id ∉ sess.disliked) :
    toggle_like id (toggle_like id sess (pre ++ s0 :: post)).2.1
        (toggle_like id sess (pre ++ s0 :: post)).1
      = (pre ++ s0 :: post, sess, Flash.success "Dein Daumen hoch wurde entfernt.") := by
  obtain ⟨l, d, g⟩ := sess
  simp only at hl hd
  have h1 := likeLoop_found_fresh id l d hl s0 hid pre post hpre
  simp only [toggle_like, h1, if_neg hd]
  have hmem : id ∈ l ++ [id] := by simp
  have h2 := likeLoop_found_liked id (l ++ [id]) d hmem
    { s0 with likes := s0.likes + 1 } hid pre post hpre
  simp only [h2, if_pos (Nat.succ_pos s0.likes), Nat.add_sub_cancel]
  rw [List.erase_append_right [id] hl, List.erase_cons_head, List.append_nil]

/-- Witness for C5 at concrete inputs. -/
theorem toggle_like_twice_id_witness :
    toggle_like 1 (toggle_like 1 ⟨[], [], Option.none⟩ [⟨1, "t", "a", 4, 2, ""⟩]).2.1
        (toggle_like 1 ⟨[], [], Option.none⟩ [⟨1, "t", "a", 4, 2, ""⟩]).1
      = ([⟨1, "t", "a", 4, 2, ""⟩], ⟨[], [], Option.none⟩,
         Flash.success "Dein Daumen hoch wurde entfernt.") := by
  have h := toggle_like_twice_id [] [] ⟨1, "t", "a", 4, 2, ""⟩ ⟨[], [], Option.none⟩ 1
    (by simp) rfl (by simp) (by simp)
  simpa using h

/-- C5 counterexample: in the state where the song with id 1 has like count
0 while the session's liked set already contains 1 (reachable: like the
song, let the DJ remove it, submit a new song that is assigned id 1 again),
two `toggleLike` calls in a row change the like count from 0 to 1 instead
of restoring it. -/
theorem toggle_like_twice_cex :
    ((toggle_like 1 (toggle_like 1 ⟨[1], [], Option.none⟩ [⟨1, "t", "a", 0, 0, ""⟩]).2.1
        (toggle_like 1 ⟨[1], [], Option.none⟩ [⟨1, "t", "a", 0, 0, ""⟩]).1).1).map Song.likes
      = [1] ∧
    ([(⟨1, "t", "a", 0, 0, ""⟩ : Song)]).map Song.likes = [0] := by
  decide

/-- What `toggleLike`/`toggleDislike` guarantee per position: id, title,
artist and timestamp are always preserved, and a song whose id differs from
the toggled one is untouched. -/
def FramePred (id : Nat) (s s2 : Song) : Prop :=
  s2.id = s.id ∧ s2.title = s.title ∧ s2.artist = s.artist ∧
  s2.timestamp = s.timestamp ∧ (s.id ≠ id → s2 = s)

lemma forall₂_frame_refl (id : Nat) :
    ∀ songs : List Song, List.Forall₂ (FramePred id) songs songs
  | [] => List.Forall₂.nil
  | _ :: rest =>
    List.Forall₂.cons ⟨rfl, rfl, rfl, rfl, fun _ => rfl⟩ (forall₂_frame_refl id rest)

lemma likeLoop_frame (id : Nat) (l d : List Nat) :
    ∀ songs : List Song, List.Forall₂ (FramePred id) songs (likeLoop id l d songs).1
  | [] => List.Forall₂.nil
  | s :: rest => by
    by_cases hs : s.id = id
    · by_cases hl : id ∈ l
      · simp only [likeLoop, if_pos hs, if_pos hl]
        exact List.Forall₂.cons ⟨rfl, rfl, rfl, rfl, fun hne => absurd hs hne⟩
          (forall₂_frame_refl id rest)
      · simp only [likeLoop, if_pos hs, if_neg hl]
        exact List.Forall₂.cons ⟨rfl, rfl, rfl, rfl, fun hne => absurd hs hne⟩
          (forall₂_frame_refl id rest)
    · have ih := likeLoop_frame id l d rest
      simp only [likeLoop, if_neg hs]
      exact List.Forall₂.cons ⟨rfl, rfl, rfl, rfl, fun _ => rfl⟩ ih

lemma dislikeLoop_frame (id : Nat) (l d : List Nat) :
    ∀ songs : List Song, List.Forall₂ (FramePred id) songs (dislikeLoop id l d songs).1
  | [] => List.Forall₂.nil
  | s :: rest => by
    by_cases hs : s.id = id
    · by_cases hd : id ∈ d
      · simp only [dislikeLoop, if_pos hs, if_pos hd]
        exact List.Forall₂.cons ⟨rfl, rfl, rfl, rfl, fun hne => absurd hs hne⟩
          (forall₂_frame_refl id rest)
      · simp only [dislikeLoop, if_pos hs, if_neg hd]
        exact List.Forall₂.cons ⟨rfl, rfl, rfl, rfl, fun hne => absurd hs hne⟩
          (forall₂_frame_refl id rest)
    · have ih := dislikeLoop_frame id l d rest
      simp only [dislikeLoop, if_neg hs]
      exact List.Forall₂.cons ⟨rfl, rfl, rfl, rfl, fun _ => rfl⟩ ih

/-- C10 (confirmed): `toggleLike` and `toggleDislike` modify at most the
song whose id matches: position by position, every song keeps its id,
title, artist and timestamp, a song with a different id is entirely
unchanged (also its like/dislike counts), no song is added or removed
(`Forall₂` forces equal lengths), and the genre vote tally is untouched. -/
theorem toggle_frame :
    ∀ (id : Nat) (w : World),
      ((like_route id w).1.gv = w.gv ∧
        List.Forall₂ (FramePred id) w.songs (like_route id w).1.songs) ∧
      ((dislike_route id w).1.gv = w.gv ∧
        List.Forall₂ (FramePred id) w.songs (dislike_route id w).1.songs) :=
  fun id w =>
    ⟨⟨rfl, likeLoop_frame id w.sess.liked w.sess.disliked w.songs⟩,
     ⟨rfl, dislikeLoop_frame id w.sess.liked w.sess.disliked w.songs⟩⟩

/-- Witness for C10 at concrete inputs. -/
theorem toggle_frame_witness :
    ((like_route 2 ⟨[⟨1, "t", "a", 0, 0, ""⟩], init_genre_votes, ⟨[], [], Option.none⟩⟩).1.gv
        = init_genre_votes ∧
      List.Forall₂ (FramePred 2) [⟨1, "t", "a", 0, 0, ""⟩]
        ((like_route 2 ⟨[⟨1, "t", "a", 0, 0, ""⟩], init_genre_votes,
          ⟨[], [], Option.none⟩⟩).1.songs)) ∧
    ((dislike_route 2 ⟨[⟨1, "t", "a", 0, 0, ""⟩], init_genre_votes, ⟨[], [], Option.none⟩⟩).1.gv
        = init_genre_votes ∧
      List.Forall₂ (FramePred 2) [⟨1, "t", "a", 0, 0, ""⟩]
        ((dislike_route 2 ⟨[⟨1, "t", "a", 0, 0, ""⟩], init_genre_votes,
          ⟨[], [], Option.none⟩⟩).1.songs)) :=
  toggle_frame 2 ⟨[⟨1, "t", "a", 0, 0, ""⟩], init_genre_votes, ⟨[], [], Option.none⟩⟩

lemma likeLoop_lists (id : Nat) (l d : List Nat) :
    ∀ songs : List Song,
      ((likeLoop id l d songs).2.1 = l ∧ (likeLoop id l d songs).2.2.1 = d) ∨
      ((likeLoop id l d songs).2.1 = l.erase id ∧ (likeLoop id l d songs).2.2.1 = d) ∨
      (id ∉ l ∧ (likeLoop id l d songs).2.1 = l ++ [id] ∧
        (likeLoop id l d songs).2.2.1 = (if id ∈ d then d.erase id else d))
  | [] => Or.inl ⟨rfl, rfl⟩
  | s :: rest => by
    by_cases hs : s.id = id
    · by_cases hl : id ∈ l
      · exact Or.inr (Or.inl (by simp [likeLoop, if_pos hs, if_pos hl]))
      · refine Or.inr (Or.inr ⟨hl, ?_⟩)
        simp [likeLoop, if_pos hs, if_neg hl]
    · have ih := likeLoop_lists id l d rest
      simpa [likeLoop, if_neg hs] using ih

lemma dislikeLoop_lists (id : Nat) (l d : List Nat) :
    ∀ songs : List Song,
      ((dislikeLoop id l d songs).2.1 = l ∧ (dislikeLoop id l d songs).2.2.1 = d) ∨
      ((dislikeLoop id l d songs).2.1 = l ∧ (dislikeLoop id l d songs).2.2.1 = d.erase id) ∨
      (id ∉ d ∧ (dislikeLoop id l d songs).2.1 = (if id ∈ l then l.erase id else l) ∧
        (dislikeLoop id l d songs).2.2.1 = d ++ [id])
  | [] => Or.inl ⟨rfl, rfl⟩
  | s :: rest => by
    by_cases hs : s.id = id
    · by_cases hd : id ∈ d
      · exact Or.inr (Or.inl (by simp [dislikeLoop, if_pos hs, if_pos hd]))
      · refine Or.inr (Or.inr ⟨hd, ?_⟩)
        simp [dislikeLoop, if_pos hs, if_neg hd]
    · have ih := dislikeLoop_lists id l d rest
      simpa [dislikeLoop, if_neg hs] using ih

/-- The session-local invariant: the liked and disliked lists hold no
duplicates and share no song id. -/
def SessInv (s : SessionState) : Prop :=
  s.liked.Nodup ∧ s.disliked.Nodup ∧ ∀ x, x ∈ s.liked → x ∉ s.disliked

lemma sessInv_like (id : Nat) (sess : SessionState) (songs : List Song)
    (h : SessInv sess) : SessInv (toggle_like id sess songs).2.1 := by
  obtain ⟨l, d, g⟩ := sess
  obtain ⟨h1, h2, h3⟩ := h
  simp only [SessInv] at h1 h2 h3 ⊢
  simp only [toggle_like]
  rcases likeLoop_lists id l d songs with ⟨e1, e2⟩ | ⟨e1, e2⟩ | ⟨hl, e1, e2⟩ <;>
    rw [e1, e2]
  · exact ⟨h1, h2, h3⟩
  · exact ⟨h1.erase id, h2, fun x hx => h3 x (List.mem_of_mem_erase hx)⟩
  · refine ⟨by simp [List.nodup_append, h1, hl], ?_, ?_⟩
    · split
      · exact h2.erase id
      · exact h2
    · intro x hx
      rcases List.mem_append.mp hx with hxl | hxi
      · split
        · exact fun hmem => h3 x hxl (List.mem_of_mem_erase hmem)
        · exact h3 x hxl
      · have hxid : x = id := by simpa using hxi
        subst hxid
        split
        · exact fun hmem => ((h2.mem_erase_iff).mp hmem).1 rfl
        · next hd => exact hd

lemma sessInv_dislike (id : Nat) (sess : SessionState) (songs : List Song)
    (h : SessInv sess) : SessInv (toggle_dislike id sess songs).2.1 := by
  obtain ⟨l, d, g⟩ := sess
  obtain ⟨h1, h2, h3⟩ := h
  simp only [SessInv] at h1 h2 h3 ⊢
  simp only [toggle_dislike]
  rcases dislikeLoop_lists id l d songs with ⟨e1, e2⟩ | ⟨e1, e2⟩ | ⟨hd, e1, e2⟩ <;>
    rw [e1, e2]
  · exact ⟨h1, h2, h3⟩
  · exact ⟨h1, h2.erase id, fun x hx hmem => h3 x hx (List.mem_of_mem_erase hmem)⟩
  · refine ⟨?_, by simp [List.nodup_append, h2, hd], ?_⟩
    · split
      · exact h1.erase id
      · exact h1
    · intro x hx
      split at hx
      · have hx2 := (h1.mem_erase_iff).mp hx
        simp [List.mem_append]
        exact ⟨h3 x hx2.2, hx2.1⟩
      · next hl =>
        simp [List.mem_append]
        exact ⟨h3 x hx, fun he => hl (he ▸ hx)⟩

lemma vote_genre_keeps_lists (g : String) (sess : SessionState) (gv : GenreVotes) :
    (vote_genre g sess gv).2.1.liked = sess.liked ∧
    (vote_genre g sess gv).2.1.disliked = sess.disliked := by
  unfold vote_genre
  split <;> simp

/-- C3 (amended): in every reachable state, a session id appears in at most
one of a song's liked and disliked sets; and for a session that has the
existing song in neither set, `toggleLike(id, s)` followed by
`toggleDislike(id, s)` brings the like count back to its pre-`toggleLike`
value and increments the dislike count by one (the toggled song ends as the
original with `dislikes + 1`).  (If the session had already liked or
disliked the song the pair behaves differently, see the counterexample.) -/
theorem liked_disliked_exclusive :
    (∀ w, Reach w → ∀ x : Nat, ¬(x ∈ w.sess.liked ∧ x ∈ w.sess.disliked)) ∧
    (∀ (pre post : List Song) (s0 : Song) (sess : SessionState) (id : Nat),
      (∀ s ∈ pre, s.id ≠ id) → s0.id = id →
      id ∉ sess.liked → id ∉ sess.disliked →
      toggle_dislike id (toggle_like id sess (pre ++ s0 :: post)).2.1
          (toggle_like id sess (pre ++ s0 :: post)).1
        = (pre ++ { s0 with dislikes := s0.dislikes + 1 } :: post,
           { sess with disliked := sess.disliked ++ [id] },
           Flash.success "Daumen runter abgegeben.")) := by
  constructor
  · have inv : ∀ w, Reach w → SessInv w.sess := by
      intro w h
      induction h with
      | init =>
        exact ⟨List.nodup_nil, List.nodup_nil, fun x hx => absurd hx (List.not_mem_nil x)⟩
      | step hr hs ih =>
        cases hs with
        | add t a ts => exact ih
        | remove id dj => exact ih
        | like id =>
          rename_i w1
          show SessInv (toggle_like id w1.sess w1.songs).2.1
          exact sessInv_like id w1.sess w1.songs ih
        | dislike id =>
          rename_i w1
          show SessInv (toggle_dislike id w1.sess w1.songs).2.1
          exact sessInv_dislike id w1.sess w1.songs ih
        | vote g =>
          rename_i w1
          show SessInv (vote_genre g w1.sess w1.gv).2.1
          obtain ⟨e1, e2⟩ := vote_genre_keeps_lists g w1.sess w1.gv
          refine ⟨by rw [e1]; exact ih.1, by rw [e2]; exact ih.2.1, fun x hx => ?_⟩
          rw [e2]
          rw [e1] at hx
          exact ih.2.2 x hx
        | otherLike id o => exact ih
        | otherDislike id o => exact ih
        | otherVote g o => exact ih
    exact fun w h x hx => (inv w h).2.2 x hx.1 hx.2
  · intro pre post s0 sess id hpre hid hl hd
    obtain ⟨l, d, g⟩ := sess
    simp only at hl hd
    have h1 := likeLoop_found_fresh id l d hl s0 hid pre post hpre
    simp only [toggle_like, h1, if_neg hd]
    have hmem : id ∈ l ++ [id] := by simp
    have h2 := dislikeLoop_found_fresh id (l ++ [id]) d hd
      { s0 with likes := s0.likes + 1 } hid pre post hpre
    simp only [toggle_dislike, h2, if_pos hmem, if_pos (Nat.succ_pos s0.likes),
      Nat.add_sub_cancel]
    rw [List.erase_append_right [id] hl, List.erase_cons_head, List.append_nil]

/-- Witness for C3 at concrete inputs. -/
theorem liked_disliked_exclusive_witness :
    (¬((3 : Nat) ∈ init_world.sess.liked ∧ (3 : Nat) ∈ init_world.sess.disliked)) ∧
    toggle_dislike 1 (toggle_like 1 ⟨[], [], Option.none⟩ [⟨1, "t", "a", 5, 2, ""⟩]).2.1
        (toggle_like 1 ⟨[], [], Option.none⟩ [⟨1, "t", "a", 5, 2, ""⟩]).1
      = ([⟨1, "t", "a", 5, 3, ""⟩], ⟨[], [1], Option.none⟩,
         Flash.success "Daumen runter abgegeben.") :=
  ⟨liked_disliked_exclusive.1 init_world Reach.init 3,
   by
     have h := liked_disliked_exclusive.2 [] [] ⟨1, "t", "a", 5, 2, ""⟩
       ⟨[], [], Option.none⟩ 1 (by simp) rfl (by simp) (by simp)
     simpa using h⟩

/-- C3 counterexample: the state reached by submitting a song and liking it
(song id 1 has like count 1, the session's liked set is `[1]`) is
reachable; from it, `toggleLike(1, s)` then `toggleDislike(1, s)` leaves
the like count at 0, not at its pre-`toggleLike` value 1. -/
theorem liked_disliked_exclusive_cex :
    Reach ⟨(toggle_like 1 ⟨[], [], Option.none⟩ (add_song "a" "x" "t" []).1).1,
           init_genre_votes,
           (toggle_like 1 ⟨[], [], Option.none⟩ (add_song "a" "x" "t" []).1).2.1⟩ ∧
    ((toggle_like 1 ⟨[], [], Option.none⟩ (add_song "a" "x" "t" []).1).1).map Song.likes
      = [1] ∧
    ((toggle_dislike 1
        (toggle_like 1
          (toggle_like 1 ⟨[], [], Option.none⟩ (add_song "a" "x" "t" []).1).2.1
          (toggle_like 1 ⟨[], [], Option.none⟩ (add_song "a" "x" "t" []).1).1).2.1
        (toggle_like 1
          (toggle_like 1 ⟨[], [], Option.none⟩ (add_song "a" "x" "t" []).1).2.1
          (toggle_like 1 ⟨[], [], Option.none⟩ (add_song "a" "x" "t" []).1).1).1).1).map
      Song.likes = [0] := by
  refine ⟨?_, by decide, by decide⟩
  exact Reach.step (Reach.step Reach.init (Step.add "a" "x" "t" init_world))
    (Step.like 1 ⟨(add_song "a" "x" "t" init_world.songs).1, init_world.gv, init_world.sess⟩)

instance : IsTrans Song songOrder :=
  ⟨fun a b c hab hbc => by unfold songOrder at *; omega⟩

instance : IsTotal Song songOrder :=
  ⟨fun a b => by unfold songOrder; omega⟩

/-- C4 (confirmed): `listSongs` returns all songs (a permutation of the
queue) sorted by descending like count with ties broken by ascending id,
and on the example queue {id 1, 2 likes}, {id 2, 5 likes}, {id 3, 2 likes}
the order of ids is `[2, 1, 3]`. -/
theorem listSongs_spec :
    ∀ songs : List Song,
      (sorted_songs songs).Perm songs ∧
      (sorted_songs songs).Pairwise
        (fun a b => b.likes < a.likes ∨ (a.likes = b.likes ∧ a.id ≤ b.id)) ∧
      (sorted_songs [⟨1, "a", "a", 2, 0, ""⟩, ⟨2, "b", "b", 5, 0, ""⟩,
          ⟨3, "c", "c", 2, 0, ""⟩]).map Song.id = [2, 1, 3] := by
  intro songs
  exact ⟨List.perm_insertionSort songOrder songs,
         List.sorted_insertionSort songOrder songs,
         by decide⟩

/-- Witness for C4 at a concrete queue. -/
theorem listSongs_spec_witness :
    (sorted_songs [⟨1, "a", "a", 2, 0, ""⟩]).Perm [⟨1, "a", "a", 2, 0, ""⟩] :=
  (listSongs_spec [⟨1, "a", "a", 2, 0, ""⟩]).1

/-- A vote tally with a single vote, for Pop. -/
def gv_pop_one : GenreVotes := fun g => if g = "Pop" then 1 else 0

/-- A vote tally with a single vote, for Rock. -/
def gv_rock_one : GenreVotes := fun g => if g = "Rock" then 1 else 0

/-- C6 (amended): `voteGenre` fails with the validation error exactly when
the name is not one of the ten fixed genres; on success, when the session
previously voted for a different valid genre that genre's count is
decremented (floored at zero) while the selected genre's count is
incremented and recorded as the session's vote; a session with no previous
vote just increments the selected genre; voting for the same genre twice in
a row leaves its count unchanged; and `voteGenre("Pop", s)` followed by
`voteGenre("Rock", s)` leaves Pop at its pre-vote value and Rock
incremented by one, for a session whose current vote is neither Pop nor
Rock (e.g. one that has not voted — if the session's current vote is Pop or
Rock the pair behaves differently, see the counterexample). -/
theorem vote_genre_spec :
    (∀ (g : String) (sess : SessionState) (gv : GenreVotes),
      ((vote_genre g sess gv).2.2.isError = true) ↔ g ∉ genres) ∧
    (∀ (g p : String) (sess : SessionState) (gv : GenreVotes),
      g ∈ genres → sess.votedGenre = some p → p ∈ genres → p ≠ g →
      (vote_genre g sess gv).1 p = gv p - 1 ∧
      (vote_genre g sess gv).1 g = gv g + 1 ∧
      (vote_genre g sess gv).2.1.votedGenre = some g) ∧
    (∀ (g : String) (sess : SessionState) (gv : GenreVotes),
      g ∈ genres → sess.votedGenre = Option.none →
      (vote_genre g sess gv).1 g = gv g + 1 ∧
      (vote_genre g sess gv).2.1.votedGenre = some g) ∧
    (∀ (g : String) (sess : SessionState) (gv : GenreVotes),
      g ∈ genres →
      (vote_genre g (vote_genre g sess gv).2.1 (vote_genre g sess gv).1).1 g
        = (vote_genre g sess gv).1 g) ∧
    (∀ (sess : SessionState) (gv : GenreVotes),
      sess.votedGenre ≠ some "Pop" → sess.votedGenre ≠ some "Rock" →
      (vote_genre "Rock" (vote_genre "Pop" sess gv).2.1 (vote_genre "Pop" sess gv).1).1 "Pop"
          = gv "Pop" ∧
      (vote_genre "Rock" (vote_genre "Pop" sess gv).2.1 (vote_genre "Pop" sess gv).1).1 "Rock"
          = gv "Rock" + 1) := by
  refine ⟨?_, ?_, ?_, ?_, ?_⟩
  · intro g sess gv
    by_cases hg : g ∈ genres <;> simp [vote_genre, hg, Flash.isError]
  · intro g p sess gv hg hvote hp hne
    refine ⟨?_, ?_, ?_⟩
    · by_cases hpos : gv p > 0
      · simp [vote_genre, if_pos hg, hvote, hp, hpos, hne]
      · simp [vote_genre, if_pos hg, hvote, hp, hpos, hne]
        omega
    · simp [vote_genre, if_pos hg, hvote]
      split <;> simp [Ne.symm hne]
    · simp [vote_genre, if_pos hg]
  · intro g sess gv hg hvote
    simp [vote_genre, if_pos hg, hvote]
  · intro g sess gv hg
    simp [vote_genre, hg]
  · intro sess gv h1 h2
    have hpop : ("Pop" : String) ∈ genres := by decide
    have hrock : ("Rock" : String) ∈ genres := by decide
    cases hv : sess.votedGenre with
    | none => simp [vote_genre, hv, hpop, hrock]
    | some p =>
      have hp1 : p ≠ "Pop" := fun e => h1 (by rw [hv, e])
      have hp2 : p ≠ "Rock" := fun e => h2 (by rw [hv, e])
      by_cases hc : p ∈ genres ∧ 0 < gv p <;>
        simp [vote_genre, hv, hpop, hrock, hc, Ne.symm hp1, Ne.symm hp2]

/-- Witness for C6 at concrete inputs. -/
theorem vote_genre_spec_witness :
    ((vote_genre "Jazz" ⟨[], [], Option.none⟩ init_genre_votes).2.2.isError = true) ∧
    ((vote_genre "Rock" ⟨[], [], some "Pop"⟩ gv_pop_one).1 "Pop" = gv_pop_one "Pop" - 1 ∧
      (vote_genre "Rock" ⟨[], [], some "Pop"⟩ gv_pop_one).1 "Rock" = gv_pop_one "Rock" + 1 ∧
      (vote_genre "Rock" ⟨[], [], some "Pop"⟩ gv_pop_one).2.1.votedGenre = some "Rock") ∧
    ((vote_genre "Rock"
        (vote_genre "Pop" ⟨[], [], Option.none⟩ init_genre_votes).2.1
        (vote_genre "Pop" ⟨[], [], Option.none⟩ init_genre_votes).1).1 "Pop"
        = init_genre_votes "Pop" ∧
      (vote_genre "Rock"
        (vote_genre "Pop" ⟨[], [], Option.none⟩ init_genre_votes).2.1
        (vote_genre "Pop" ⟨[], [], Option.none⟩ init_genre_votes).1).1 "Rock"
        = init_genre_votes "Rock" + 1) :=
  ⟨(vote_genre_spec.1 "Jazz" ⟨[], [], Option.none⟩ init_genre_votes).mpr (by decide),
   vote_genre_spec.2.1 "Rock" "Pop" ⟨[], [], some "Pop"⟩ gv_pop_one
     (by decide) rfl (by decide) (by decide),
   vote_genre_spec.2.2.2.2 ⟨[], [], Option.none⟩ init_genre_votes
     (by simp) (by simp)⟩

/-- C6 counterexample: for a session whose current vote is Rock (tally:
Rock 1, everything else 0), `voteGenre("Pop", s)` then `voteGenre("Rock", s)`
leaves Rock's count at 1, not at its pre-vote value plus one (2): the first
vote removed the session's old Rock vote. -/
theorem vote_genre_example_cex :
    (vote_genre "Rock" (vote_genre "Pop" ⟨[], [], some "Rock"⟩ gv_rock_one).2.1
        (vote_genre "Pop" ⟨[], [], some "Rock"⟩ gv_rock_one).1).1 "Rock" = 1 ∧
    gv_rock_one "Rock" + 1 = 2 := by
  decide

lemma foldl_max_step {α : Type} (f : α → Nat) (a x : α) :
    f (if f x > f a then x else a) = max (f a) (f x) := by
  split <;> omega

lemma firstMaxBy_cons {α : Type} (f : α → Nat) (a x : α) (l : List α) :
    firstMaxBy f a (x :: l) = firstMaxBy f (if f x > f a then x else a) l := rfl

lemma find?_firstMaxBy {α : Type} (f : α → Nat) :
    ∀ (l : List α) (a : α),
      (a :: l).find? (fun x => f x == (l.map f).foldl max (f a)) = some (firstMaxBy f a l)
  | [], a => by simp [firstMaxBy]
  | x :: t, a => by
    have ihb := find?_firstMaxBy f t (if f x > f a then x else a)
    have hM : ((x :: t).map f).foldl max (f a)
        = (t.map f).foldl max (f (if f x > f a then x else a)) := by
      rw [List.map_cons, List.foldl_cons, foldl_max_step f a x]
    rw [firstMaxBy_cons]
    by_cases hax : f x > f a
    · simp only [if_pos hax] at ihb hM ⊢
      have hfa : f a < (t.map f).foldl max (f x) :=
        lt_of_lt_of_le hax (init_le_foldl_max (t.map f) (f x))
      have hpa : (f a == (t.map f).foldl max (f x)) = false := by
        simp only [beq_eq_false_iff_ne]
        omega
      rw [hM]
      simp only [List.find?_cons, hpa]
      exact ihb
    · simp only [if_neg hax] at ihb hM ⊢
      rw [hM]
      by_cases ham : f a = (t.map f).foldl max (f a)
      · have hpa : (f a == (t.map f).foldl max (f a)) = true := by
          simp only [beq_iff_eq]
          exact ham
        simp only [List.find?_cons, hpa] at ihb ⊢
        exact ihb
      · have hfa : f a < (t.map f).foldl max (f a) :=
          lt_of_le_of_ne (init_le_foldl_max (t.map f) (f a)) ham
        have hfx : f x ≤ f a := Nat.le_of_not_lt hax
        have hpa : (f a == (t.map f).foldl max (f a)) = false := by
          simp only [beq_eq_false_iff_ne]
          omega
        have hpx : (f x == (t.map f).foldl max (f a)) = false := by
          simp only [beq_eq_false_iff_ne]
          omega
        simp only [List.find?_cons, hpa, hpx] at ihb ⊢
        exact ihb

/-- C8 (confirmed): `genreSummary` reports percentage `count / total * 100`
for every genre when the total is positive and `0` for every genre when the
total is zero; `topGenre` is absent exactly when the total is zero, and
otherwise it is the first genre in enumeration order whose count equals the
maximum count. -/
theorem genre_summary_spec :
    ∀ gv : GenreVotes,
      (top_genre gv = Option.none ↔ total_votes gv = 0) ∧
      (total_votes gv = 0 → ∀ e ∈ genre_data gv, e.percentage = 0) ∧
      (0 < total_votes gv →
        (∀ e ∈ genre_data gv,
          e.percentage = (e.votes : ℚ) / (total_votes gv : ℚ) * 100) ∧
        top_genre gv = genres.find? (fun g => gv g == max_count gv)) := by
  intro gv
  refine ⟨?_, ?_, ?_⟩
  · by_cases h : 0 < total_votes gv
    · simp [top_genre, h, genres]
      omega
    · simp [top_genre, h]
      omega
  · intro h e he
    simp only [genre_data] at he
    obtain ⟨g, hg, rfl⟩ := List.mem_map.mp he
    simp [h]
  · intro h
    constructor
    · intro e he
      simp only [genre_data] at he
      obtain ⟨g, hg, rfl⟩ := List.mem_map.mp he
      simp [h]
    · have hgen : genres = "Pop" :: ["Rock", "Hip-Hop", "Elektronisch", "Dance",
          "Schlager", "R&B", "Reggae", "Latin", "Alternative"] := rfl
      have hmc : max_count gv = (["Rock", "Hip-Hop", "Elektronisch", "Dance",
          "Schlager", "R&B", "Reggae", "Latin", "Alternative"].map gv).foldl max (gv "Pop") := by
        simp only [max_count]
        rw [hgen, List.map_cons, List.foldl_cons, Nat.zero_max]
      have hfind := find?_firstMaxBy gv ["Rock", "Hip-Hop", "Elektronisch", "Dance",
          "Schlager", "R&B", "Reggae", "Latin", "Alternative"] "Pop"
      rw [hmc, hgen, hfind]
      simp only [top_genre, if_pos h]
      rw [hgen]

/-- Witness for C8 at concrete tallies. -/
theorem genre_summary_spec_witness :
    top_genre init_genre_votes = Option.none ∧
    top_genre gv_rock_one = genres.find? (fun g => gv_rock_one g == max_count gv_rock_one) :=
  ⟨(genre_summary_spec init_genre_votes).1.mpr (by decide),
   ((genre_summary_spec gv_rock_one).2.2 (by decide)).2⟩

end PartyQueue
